import Mathlib

/-
Verification development for the Novus gateway connection subsystem
(src/novus/api/gateway/gateway.py and src/novus/api/gateway/dispatch.py).

The Python code is shallowly embedded: pure data flow becomes Lean
functions, stateful methods become explicit state passing, exceptions
become explicit outcome constructors, and calls into external libraries
(zlib, json, the websocket) are parameters of the embedding that the
control flow threads through exactly as the source does.
-/

set_option autoImplicit false

namespace NovusGateway

/-- JSON values, used for wire payloads of shape op / t / s / d. -/
inductive JVal where
  | null : JVal
  | jbool : Bool → JVal
  | jnum : Int → JVal
  | jstr : String → JVal
  | jarr : List JVal → JVal
  | jobj : List (String × JVal) → JVal

/-- Field lookup on a JSON object, none on other JSON values. -/
def jlookup (key : String) : JVal → Option JVal
  | .jobj fields => fields.lookup key
  | _ => none

/-- The parsed gateway message returned by GatewayShard.receive
(gateway.py:477-482): the op field as an int, and the optional
t, s and d fields. -/
structure ParsedMsg where
  op : Int
  t : Option String
  s : Option Int
  d : JVal

/-- The four flush-marker bytes 00 00 FF FF (gateway.py:436). -/
def marker : List Nat := [0x00, 0x00, 0xff, 0xff]

/-- The completion test of gateway.py:436, where the last four bytes of
the buffer are compared against the marker.  A Python slice shorter than
four bytes never equals the four-byte marker, so the test is exactly
whether the marker is a suffix of the buffer. -/
def endsWithMarker (buffer : List Nat) : Bool :=
  marker.isSuffixOf buffer

/-- Concatenation of a list of byte chunks. -/
def concatFrames (fs : List (List Nat)) : List Nat :=
  fs.foldr (fun f acc => f ++ acc) []

@[simp] theorem concatFrames_nil : concatFrames [] = [] := rfl

@[simp] theorem concatFrames_cons (f : List Nat) (fs : List (List Nat)) :
    concatFrames (f :: fs) = f ++ concatFrames fs := rfl

/-- The exceptions GatewayShard.receive can raise, as the callers of
receive distinguish them (gateway.py:315-340). -/
inductive GwRaise where
  | close : GwRaise
  | closed : GwRaise
  | authFailed : GwRaise
  | gatewayExc : Bool → GwRaise
  | other : GwRaise
  deriving DecidableEq

/-- The outcome of one call to GatewayShard.receive: a parsed message,
a plain None return, or a raised exception. -/
inductive ReceiveResult where
  | msg : ParsedMsg → ReceiveResult
  | retNone : ReceiveResult
  | raise : GwRaise → ReceiveResult

/-- The outcome of json.loads inside receive (gateway.py:457-469):
success, a MemoryError (the only exception the source catches there),
or any other exception. -/
inductive ParseOutcome where
  | ok : ParsedMsg → ParseOutcome
  | memErr : ParseOutcome
  | err : ParseOutcome

/-- One websocket frame as handed to receive by socket.receive
(gateway.py:393-420). -/
inductive WSMessage where
  | binary : List Nat → WSMessage
  | text : String → WSMessage
  | wsError : WSMessage
  | wsClosing : WSMessage
  | wsClose : Option Nat → WSMessage
  | wsClosed : WSMessage
  | readError : WSMessage
  deriving DecidableEq

/-- The external collaborators receive calls into, threaded through the
embedding as parameters: the streaming zlib decompressor (with its
persistent state of type zeta), UTF-8 decoding, json parsing, and the
close-code table GatewayException.all_exceptions together with the
default reconnect flag of a bare GatewayException. -/
structure DecodeEnv (zeta : Type) where
  decompress : zeta → List Nat → Option (zeta × List Nat)
  utf8 : List Nat → Option String
  parse : String → ParseOutcome
  closeTable : Nat → GwRaise
  closedReconnect : Bool

/-- The per-connection decoder state owned by the shard: the byte
buffer (self underscore buffer) and the zlib decompressor object. -/
structure DecoderState (zeta : Type) where
  buffer : List Nat
  z : zeta

/-- One call to GatewayShard.receive (gateway.py:376-482), processing
one frame read from the socket.  Every control path of the source
returns or raises after a single socket read, so one call is one
decoding step. -/
def receiveStep {zeta : Type} (env : DecodeEnv zeta) (st : DecoderState zeta)
    (w : WSMessage) : DecoderState zeta × ReceiveResult :=
  match w with
  | .readError => (st, .retNone)
  | .wsError => (st, .retNone)
  | .wsClosing => (st, .raise .close)
  | .wsClose none => (st, .raise .closed)
  | .wsClose (some c) => (st, .raise (env.closeTable c))
  | .wsClosed => (st, .raise (.gatewayExc env.closedReconnect))
  | .text s =>
      -- a non-binary frame is complete immediately; the buffer clear of
      -- gateway.py:454 runs before the parse
      match env.parse s with
      | .ok m => ({ st with buffer := [] }, .msg m)
      | .memErr => ({ st with buffer := [] }, .raise .close)
      | .err => ({ st with buffer := [] }, .raise .other)
  | .binary bs =>
      let buf := st.buffer ++ bs
      if endsWithMarker buf then
        match env.decompress st.z buf with
        | none =>
            -- decompression failure raises GatewayClose before the
            -- buffer clear of gateway.py:454 is reached
            ({ st with buffer := buf }, .raise .close)
        | some (z1, out) =>
            match env.utf8 out with
            | none => ({ buffer := [], z := z1 }, .raise .other)
            | some s =>
                match env.parse s with
                | .ok m => ({ buffer := [], z := z1 }, .msg m)
                | .memErr => ({ buffer := [], z := z1 }, .raise .close)
                | .err => ({ buffer := [], z := z1 }, .raise .other)
      else
        (({ st with buffer := buf }), .retNone)

/-- Successive calls to receive over a list of incoming frames,
collecting the outcome of each call in order. -/
def runDecoder {zeta : Type} (env : DecodeEnv zeta) :
    DecoderState zeta → List WSMessage → DecoderState zeta × List ReceiveResult
  | st, [] => (st, [])
  | st, w :: ws =>
      let step := receiveStep env st w
      let rest := runDecoder env step.1 ws
      (rest.1, step.2 :: rest.2)

@[simp] theorem runDecoder_nil {zeta : Type} (env : DecodeEnv zeta)
    (st : DecoderState zeta) : runDecoder env st [] = (st, []) := rfl

@[simp] theorem runDecoder_cons {zeta : Type} (env : DecodeEnv zeta)
    (st : DecoderState zeta) (w : WSMessage) (ws : List WSMessage) :
    runDecoder env st (w :: ws)
      = ((runDecoder env (receiveStep env st w).1 ws).1,
         (receiveStep env st w).2 :: (runDecoder env (receiveStep env st w).1 ws).2) := rfl

/-- Helper for the frame-boundary theorem: running receive over binary
frames whose accumulated buffer (starting from acc) first ends in the
marker at the last frame emits retNone at every step but the last,
which emits the parsed message and leaves an empty buffer. -/
theorem runDecoder_marker_aux {zeta : Type} (env : DecodeEnv zeta) :
    ∀ (fs : List (List Nat)) (acc : List Nat) (z0 z1 : zeta) (out : List Nat)
      (s : String) (m : ParsedMsg),
      fs ≠ [] →
      (∀ k ∈ List.range (fs.length - 1),
        endsWithMarker (acc ++ concatFrames (fs.take (k + 1))) = false) →
      endsWithMarker (acc ++ concatFrames fs) = true →
      env.decompress z0 (acc ++ concatFrames fs) = some (z1, out) →
      env.utf8 out = some s →
      env.parse s = ParseOutcome.ok m →
      runDecoder env ⟨acc, z0⟩ (fs.map WSMessage.binary)
        = (⟨[], z1⟩, List.replicate (fs.length - 1) ReceiveResult.retNone
            ++ [ReceiveResult.msg m]) := by
  intro fs
  induction fs with
  | nil =>
    intro acc z0 z1 out s m hne _ _ _ _ _
    exact absurd rfl hne
  | cons f rest ih =>
    intro acc z0 z1 out s m _ hmid hend hdec hutf hparse
    cases rest with
    | nil =>
      simp only [concatFrames_cons, concatFrames_nil, List.append_nil] at hend hdec
      simp [receiveStep, hend, hdec, hutf, hparse]
    | cons g rest2 =>
      have h0 : endsWithMarker (acc ++ f) = false := by
        have := hmid 0 (by simp)
        simpa using this
      have hstep : receiveStep env ⟨acc, z0⟩ (WSMessage.binary f)
          = (⟨acc ++ f, z0⟩, ReceiveResult.retNone) := by
        simp [receiveStep, h0]
      have hmid2 : ∀ k ∈ List.range ((g :: rest2).length - 1),
          endsWithMarker ((acc ++ f) ++ concatFrames ((g :: rest2).take (k + 1))) = false := by
        intro k hk
        have hk2 : k + 1 ∈ List.range ((f :: g :: rest2).length - 1) := by
          simp only [List.mem_range] at hk ⊢
          simpa using Nat.succ_lt_succ hk
        have := hmid (k + 1) hk2
        simpa [List.append_assoc] using this
      have hend2 : endsWithMarker ((acc ++ f) ++ concatFrames (g :: rest2)) = true := by
        simpa [List.append_assoc] using hend
      have hdec2 : env.decompress z0 ((acc ++ f) ++ concatFrames (g :: rest2))
          = some (z1, out) := by
        simpa [List.append_assoc] using hdec
      have hrest := ih (acc ++ f) z0 z1 out s m (by simp) hmid2 hend2 hdec2 hutf hparse
      rw [List.map_cons, runDecoder_cons, hstep]
      simp only [hrest]
      simp [List.replicate_succ]

/-- C1 (confirmed): for any nonempty sequence of binary frames whose
accumulated buffer does not yet end in the marker bytes 00 00 FF FF
before the last frame, ends in the marker at the last frame, and then
decompresses, decodes and parses successfully, the receive decoder
emits zero parsed messages at every decoding step before the marker is
seen and exactly one parsed message at the step in which the marker is
seen.  The frame count is arbitrary, covering a message split across
1, 2 or N frames. -/
theorem receive_emits_message_only_at_marker {zeta : Type} (env : DecodeEnv zeta)
    (z0 z1 : zeta) (fs : List (List Nat)) (out : List Nat) (s : String) (m : ParsedMsg)
    (hne : fs ≠ [])
    (hmid : ∀ k ∈ List.range (fs.length - 1),
      endsWithMarker (concatFrames (fs.take (k + 1))) = false)
    (hend : endsWithMarker (concatFrames fs) = true)
    (hdec : env.decompress z0 (concatFrames fs) = some (z1, out))
    (hutf : env.utf8 out = some s)
    (hparse : env.parse s = ParseOutcome.ok m) :
    runDecoder env ⟨[], z0⟩ (fs.map WSMessage.binary)
      = (⟨[], z1⟩, List.replicate (fs.length - 1) ReceiveResult.retNone
          ++ [ReceiveResult.msg m]) := by
  refine runDecoder_marker_aux env fs [] z0 z1 out s m hne ?_ ?_ ?_ hutf hparse
  · simpa using hmid
  · simpa using hend
  · simpa using hdec

/-- A sample parsed message used to instantiate the decoder theorems. -/
def sampleMsg : ParsedMsg :=
  { op := 0, t := some "MESSAGE_CREATE", s := some 1, d := JVal.null }

/-- A concrete decode environment: the decompressor passes bytes through
and counts invocations in its state, decoding always yields the string
payload, and parsing that string yields sampleMsg. -/
def sampleEnv : DecodeEnv Nat where
  decompress := fun z b => some (z + 1, b)
  utf8 := fun _ => some "payload"
  parse := fun s => if s = "payload" then ParseOutcome.ok sampleMsg else ParseOutcome.err
  closeTable := fun _ => GwRaise.gatewayExc true
  closedReconnect := true

/-- Witness for C1: a message split across two binary frames, the first
step emitting nothing and the second (where the marker arrives) emitting
exactly one parsed message. -/
theorem receive_emits_message_only_at_marker_witness :
    runDecoder sampleEnv ⟨[], 0⟩ [WSMessage.binary [1], WSMessage.binary [0, 0, 255, 255]]
      = (⟨[], 1⟩, [ReceiveResult.retNone, ReceiveResult.msg sampleMsg]) := by
  exact receive_emits_message_only_at_marker sampleEnv 0 1 [[1], [0, 0, 255, 255]]
    [1, 0, 0, 255, 255] "payload" sampleMsg (by decide) (by decide) (by decide)
    rfl rfl rfl

/-- What GatewayShard.messages does with the outcome of one receive call
(gateway.py:305-347): yield a parsed message, end the generator on a
None, spawn a reconnect task for the recoverable exceptions (resume
true for GatewayClose and GatewayClosed, the reconnect flag of the
exception for GatewayException, resume false for any other exception),
or terminate the process for GatewayAuthenticationFailed. -/
inductive MessagesAction where
  | yieldMsg : ParsedMsg → MessagesAction
  | endStream : MessagesAction
  | reconnect : Bool → MessagesAction
  | exitProcess : MessagesAction

/-- The dispatch of gateway.py:305-347 on one receive outcome. -/
def messagesAction : ReceiveResult → MessagesAction
  | .msg m => .yieldMsg m
  | .retNone => .endStream
  | .raise .close => .reconnect true
  | .raise .closed => .reconnect true
  | .raise .authFailed => .exitProcess
  | .raise (.gatewayExc r) => .reconnect r
  | .raise .other => .reconnect false

/-- Whether a messages-loop action is a reconnect of the connection. -/
def MessagesAction.isReconnect : MessagesAction → Bool
  | .reconnect _ => true
  | _ => false

/-- Whether a messages-loop action terminates the whole process. -/
def MessagesAction.isExitProcess : MessagesAction → Bool
  | .exitProcess => true
  | _ => false

/-- The decoder state at the start of a (re)connect: GatewayShard
underscore connect clears the byte buffer and installs a fresh zlib
decompressor object (gateway.py:524-526). -/
def connectDecoderInit {zeta : Type} (zFresh : zeta) : DecoderState zeta :=
  { buffer := [], z := zFresh }

/-- C5 (confirmed): when a completed buffer fails to decompress, decode
or parse, the receive step raises an exception that the messages loop
turns into a reconnect of that connection, never into process
termination; and the reconnect runs underscore connect, which clears
the byte buffer, so a subsequent well-formed frame on the reconnected
decoder parses into exactly its own message, unpolluted by the failed
buffer. -/
theorem decode_failure_triggers_reconnect_and_clears_buffer {zeta : Type}
    (env : DecodeEnv zeta) (st : DecoderState zeta) (bs : List Nat) (zFresh z2 : zeta)
    (bs2 out2 : List Nat) (s2 : String) (m2 : ParsedMsg)
    (hc : endsWithMarker (st.buffer ++ bs) = true)
    (hfail : env.decompress st.z (st.buffer ++ bs) = none
      ∨ (∃ z1 out, env.decompress st.z (st.buffer ++ bs) = some (z1, out)
          ∧ env.utf8 out = none)
      ∨ (∃ z1 out s, env.decompress st.z (st.buffer ++ bs) = some (z1, out)
          ∧ env.utf8 out = some s
          ∧ (env.parse s = ParseOutcome.memErr ∨ env.parse s = ParseOutcome.err)))
    (hc2 : endsWithMarker bs2 = true)
    (hdec2 : env.decompress zFresh bs2 = some (z2, out2))
    (hutf2 : env.utf8 out2 = some s2)
    (hparse2 : env.parse s2 = ParseOutcome.ok m2) :
    (messagesAction (receiveStep env st (WSMessage.binary bs)).2).isReconnect = true
    ∧ (messagesAction (receiveStep env st (WSMessage.binary bs)).2).isExitProcess = false
    ∧ (connectDecoderInit zFresh : DecoderState zeta).buffer = []
    ∧ receiveStep env (connectDecoderInit zFresh) (WSMessage.binary bs2)
        = (⟨[], z2⟩, ReceiveResult.msg m2) := by
  refine ⟨?_, ?_, rfl, ?_⟩
  · rcases hfail with h | ⟨z1, out, h1, h2⟩ | ⟨z1, out, s, h1, h2, h3⟩
    · simp [receiveStep, hc, h, messagesAction, MessagesAction.isReconnect]
    · simp [receiveStep, hc, h1, h2, messagesAction, MessagesAction.isReconnect]
    · rcases h3 with h3 | h3 <;>
        simp [receiveStep, hc, h1, h2, h3, messagesAction, MessagesAction.isReconnect]
  · rcases hfail with h | ⟨z1, out, h1, h2⟩ | ⟨z1, out, s, h1, h2, h3⟩
    · simp [receiveStep, hc, h, messagesAction, MessagesAction.isExitProcess]
    · simp [receiveStep, hc, h1, h2, messagesAction, MessagesAction.isExitProcess]
    · rcases h3 with h3 | h3 <;>
        simp [receiveStep, hc, h1, h2, h3, messagesAction, MessagesAction.isExitProcess]
  · simp [receiveStep, connectDecoderInit, hc2, hdec2, hutf2, hparse2]

/-- A decode environment whose decompressor rejects exactly the
five-byte buffer 9 0 0 255 255 and passes every other buffer through,
used to exercise the failure path concretely. -/
def failingEnv : DecodeEnv Nat where
  decompress := fun z b => if b = [9, 0, 0, 255, 255] then none else some (z + 1, b)
  utf8 := fun _ => some "payload"
  parse := fun s => if s = "payload" then ParseOutcome.ok sampleMsg else ParseOutcome.err
  closeTable := fun _ => GwRaise.gatewayExc true
  closedReconnect := true

/-- Witness for C5: a concrete completed buffer whose decompression
fails yields a reconnect (not a process exit), and after the connect
reset a well-formed frame parses cleanly. -/
theorem decode_failure_triggers_reconnect_and_clears_buffer_witness :
    (messagesAction (receiveStep failingEnv ⟨[9], 0⟩ (WSMessage.binary [0, 0, 255, 255])).2).isReconnect = true
    ∧ (messagesAction (receiveStep failingEnv ⟨[9], 0⟩ (WSMessage.binary [0, 0, 255, 255])).2).isExitProcess = false
    ∧ (connectDecoderInit 0 : DecoderState Nat).buffer = []
    ∧ receiveStep failingEnv (connectDecoderInit 0) (WSMessage.binary [7, 0, 0, 255, 255])
        = (⟨[], 1⟩, ReceiveResult.msg sampleMsg) := by
  exact decode_failure_triggers_reconnect_and_clears_buffer failingEnv ⟨[9], 0⟩
    [0, 0, 255, 255] 0 1 [7, 0, 0, 255, 255] [7, 0, 0, 255, 255] "payload" sampleMsg
    (by decide) (Or.inl (by decide)) (by decide) (by decide) rfl rfl

/-- What one heartbeat attempt inside the for loop of
GatewayShard.heartbeat (gateway.py:711-749) experiences: the send
succeeds and the acknowledgement wait finishes in time (ack); the
acknowledgement wait hits the 10 second timeout, which asyncio.wait
underscore for reports by raising asyncio.TimeoutError (timeout); the
task is cancelled during the attempt, raising asyncio.CancelledError
(cancelled); or the send raises ValueError because the socket is gone
or closed (socketClosed). -/
inductive AttemptOutcome where
  | ack : AttemptOutcome
  | timeout : AttemptOutcome
  | cancelled : AttemptOutcome
  | socketClosed : AttemptOutcome
  deriving DecidableEq

/-- How one beat cycle of gateway.py:711-749 ends. -/
inductive CycleResult where
  | completed : CycleResult
  | reconnectResume : CycleResult
  | taskDied : CycleResult
  deriving DecidableEq

/-- The for loop over beat underscore attempt in range 1000
(gateway.py:711-749), with the outcome of attempt number i given by
outcomes i.  The try block catches only asyncio.CancelledError (retried
in place while the attempt number is at most 5, reconnect with resume
afterwards) and ValueError (reconnect with resume); an
asyncio.TimeoutError from the acknowledgement wait matches neither
clause and escapes the task, which dies with an uncaught exception. -/
def beatAttempts (outcomes : Nat → AttemptOutcome) : Nat → Nat → CycleResult
  | 0, _ => .completed
  | fuel + 1, i =>
      match outcomes i with
      | .ack => .completed
      | .timeout => .taskDied
      | .cancelled =>
          if i ≤ 5 then beatAttempts outcomes fuel (i + 1) else .reconnectResume
      | .socketClosed => .reconnectResume

/-- One full beat cycle: 1000 attempts starting at attempt 0. -/
def beatCycle (outcomes : Nat → AttemptOutcome) : CycleResult :=
  beatAttempts outcomes 1000 0

/-- Counterexample to C2: a run in which 6 consecutive heartbeat
attempts each time out (and every later attempt would acknowledge) does
not trigger a reconnect with resume; the first timeout already kills
the heartbeat task with an uncaught asyncio.TimeoutError, because the
except clause catches CancelledError, not TimeoutError. -/
theorem heartbeat_six_timeouts_no_reconnect :
    beatCycle (fun i => if i < 6 then AttemptOutcome.timeout else AttemptOutcome.ack)
      = CycleResult.taskDied
    ∧ beatCycle (fun i => if i < 6 then AttemptOutcome.timeout else AttemptOutcome.ack)
      ≠ CycleResult.reconnectResume := by
  exact ⟨rfl, by decide⟩

/-- C2 (corrected): an acknowledgement timeout raises an uncaught
asyncio.TimeoutError that terminates the heartbeat task at once, with
no in-place retry and no reconnect; the in-place retry and reconnect
logic of the except clause applies to CancelledError instead, retrying
attempts 0 through 5 in place and reconnecting with resume enabled at
attempt 6, and a ValueError from sending on a closed socket also
reconnects with resume enabled. -/
theorem heartbeat_timeout_kills_task_cancel_reconnects :
    (∀ rest : Nat → AttemptOutcome,
      beatCycle (fun i => if i = 0 then AttemptOutcome.timeout else rest i)
        = CycleResult.taskDied)
    ∧ beatCycle (fun _ => AttemptOutcome.cancelled) = CycleResult.reconnectResume
    ∧ (∀ k : Fin 7,
      beatCycle (fun i => if i < k.val then AttemptOutcome.cancelled else AttemptOutcome.ack)
        = CycleResult.completed)
    ∧ (∀ rest : Nat → AttemptOutcome,
      beatCycle (fun i => if i = 0 then AttemptOutcome.socketClosed else rest i)
        = CycleResult.reconnectResume) := by
  refine ⟨fun rest => rfl, by decide, by decide, fun rest => rfl⟩

/-- The IDENTIFY payload built by GatewayShard.identify
(gateway.py:752-771): token, properties with os from platform.system()
and browser and device fixed to Novus, shard as the two-element array
of shard id and shard count, and the numeric intents value. -/
def identifyPayload (token os : String) (shardId shardCount intents : Nat) : JVal :=
  .jobj
    [("token", .jstr token),
     ("properties", .jobj
        [("os", .jstr os),
         ("browser", .jstr "Novus"),
         ("device", .jstr "Novus")]),
     ("shard", .jarr [.jnum shardId, .jnum shardCount]),
     ("intents", .jnum intents)]

/-- C8 (confirmed): for every shard id, shard count and intents value
the IDENTIFY payload has the shape token, properties (os, browser,
device), shard equal to the two-element array of id and count, and
intents equal to the given value; concretely, for shard 3 of 8 with
intents 513 the shard field is the array 3, 8 and the intents field is
513. -/
theorem identify_payload_shape :
    (∀ (token os : String) (shardId shardCount intents : Nat),
      jlookup "token" (identifyPayload token os shardId shardCount intents)
          = some (.jstr token)
      ∧ jlookup "properties" (identifyPayload token os shardId shardCount intents)
          = some (.jobj
              [("os", .jstr os),
               ("browser", .jstr "Novus"),
               ("device", .jstr "Novus")])
      ∧ jlookup "shard" (identifyPayload token os shardId shardCount intents)
          = some (.jarr [.jnum shardId, .jnum shardCount])
      ∧ jlookup "intents" (identifyPayload token os shardId shardCount intents)
          = some (.jnum intents))
    ∧ jlookup "shard" (identifyPayload "token" "Linux" 3 8 513)
        = some (.jarr [.jnum 3, .jnum 8])
    ∧ jlookup "intents" (identifyPayload "token" "Linux" 3 8 513)
        = some (.jnum 513) := by
  refine ⟨fun token os shardId shardCount intents => ⟨?_, ?_, ?_, ?_⟩, ?_, ?_⟩ <;>
    simp [identifyPayload, jlookup, List.lookup]

/-- The presence payload built by GatewayShard.change underscore
presence when the shard is ready (gateway.py:840-848). -/
def presencePayload (activities : List JVal) (status : String) : JVal :=
  .jobj
    [("activities", .jarr activities),
     ("status", .jstr status),
     ("since", .null),
     ("afk", .jbool false)]

/-- GatewayShard.change underscore presence (gateway.py:821-848):
when the socket is missing, the socket is closed, or the ready signal
is not set, the method logs and returns without sending; otherwise it
sends the presence payload. -/
def change_presence (socketIsNone socketClosed readySet : Bool)
    (activities : List JVal) (status : String) : Option JVal :=
  if socketIsNone || socketClosed || !readySet then none
  else some (presencePayload activities status)

/-- C9 (confirmed): a presence change is skipped (no send, no error)
exactly when the socket is absent, the socket is closed, or the ready
signal is not set; on a ready shard it sends the presence payload. -/
theorem change_presence_skips_when_not_ready :
    (∀ (socketIsNone socketClosed readySet : Bool)
        (activities : List JVal) (status : String),
      (change_presence socketIsNone socketClosed readySet activities status).isNone
        = (socketIsNone || socketClosed || !readySet))
    ∧ (∀ (activities : List JVal) (status : String),
      change_presence false false true activities status
        = some (presencePayload activities status)) := by
  constructor
  · intro sn sc rs acts st
    cases sn <;> cases sc <;> cases rs <;> rfl
  · intro acts st
    rfl

/-- Assignment into a Python dict keyed by snowflake id, modelled on an
association list: replace the binding if the key is present, append it
otherwise. -/
def alistInsert {alpha : Type} : List (Nat × alpha) → Nat → alpha → List (Nat × alpha)
  | [], k, v => [(k, v)]
  | (k0, v0) :: rest, k, v =>
      if k0 = k then (k, v) :: rest else (k0, v0) :: alistInsert rest k v

/-- Python dict.get keyed by snowflake id on an association list. -/
def alistGet {alpha : Type} : List (Nat × alpha) → Nat → Option alpha
  | [], _ => none
  | (k0, v0) :: rest, k => if k0 = k then some v0 else alistGet rest k

/-- Python dict.update: insert every binding of the second list. -/
def alistUpdate {alpha : Type} (l adds : List (Nat × alpha)) : List (Nat × alpha) :=
  adds.foldl (fun acc kv => alistInsert acc kv.1 kv.2) l

theorem alistGet_alistInsert {alpha : Type} (l : List (Nat × alpha)) (k : Nat) (v : alpha) :
    alistGet (alistInsert l k v) k = some v := by
  induction l with
  | nil => simp [alistInsert, alistGet]
  | cons hd tl ih =>
    by_cases h : hd.1 = k
    · simp [alistInsert, alistGet, h]
    · simp [alistInsert, alistGet, h, ih]

/-- Modelled from the spec: the Guild entity that the model-construction
layer (the novus.models.Guild class, not under src) builds from a
gateway guild payload and populates through underscore sync; it carries
the refreshed payload fields (here id and name stand for them) and the
maps of members, channels, threads, emojis, stickers and scheduled
events, each keyed by snowflake id. -/
structure GuildEntity where
  id : Nat
  name : String
  members : List (Nat × JVal)
  channels : List (Nat × JVal)
  threads : List (Nat × JVal)
  emojis : List (Nat × JVal)
  stickers : List (Nat × JVal)
  events : List (Nat × JVal)

/-- A gateway guild payload as the guild update handler consumes it:
the refreshed fields plus optional member data (the member list is
absent from a plain guild update payload). -/
structure GatewayGuildPayload where
  id : Nat
  name : String
  members : Option (List (Nat × JVal))
  channels : List (Nat × JVal)
  threads : List (Nat × JVal)
  emojis : List (Nat × JVal)
  stickers : List (Nat × JVal)
  events : List (Nat × JVal)

/-- Modelled from the spec: Guild construction plus underscore sync,
refreshing every entity field from the payload; absent member data
yields an empty member map. -/
def buildGuild (p : GatewayGuildPayload) : GuildEntity :=
  { id := p.id
    name := p.name
    members := p.members.getD []
    channels := p.channels
    threads := p.threads
    emojis := p.emojis
    stickers := p.stickers
    events := p.events }

/-- The shared APICache as Dispatch mutates it: the cached self user and
application id plus the entity maps keyed by snowflake id. -/
structure CacheState where
  user : Option JVal := none
  applicationId : Option Nat := none
  guilds : List (Nat × GuildEntity) := []
  channels : List (Nat × JVal) := []
  users : List (Nat × JVal) := []
  emojis : List (Nat × JVal) := []
  stickers : List (Nat × JVal) := []
  events : List (Nat × JVal) := []

/-- GatewayDispatch underscore handle underscore guild underscore
update (dispatch.py:174-186): build a fresh guild from the payload; if
that guild id is already cached, carry the cached member map over onto
the fresh guild; store the guild and fold its channels, threads,
emojis, stickers and scheduled events into the cache. -/
def _handle_guild_update (cache : CacheState) (p : GatewayGuildPayload) :
    CacheState × (String × GuildEntity) :=
  let guild := buildGuild p
  let guild :=
    match alistGet cache.guilds guild.id with
    | some current => { guild with members := current.members }
    | none => guild
  ({ cache with
      guilds := alistInsert cache.guilds guild.id guild
      channels := alistUpdate (alistUpdate cache.channels guild.channels) guild.threads
      emojis := alistUpdate cache.emojis guild.emojis
      stickers := alistUpdate cache.stickers guild.stickers
      events := alistUpdate cache.events guild.events },
   ("guild_update", guild))

/-- C7 (confirmed): after a guild update whose payload lacks member
data, for a previously cached guild, the members stored for that guild
are exactly the previously cached members, while the other guild
fields are refreshed from the payload. -/
theorem guild_update_preserves_members (cache : CacheState)
    (p : GatewayGuildPayload) (old : GuildEntity)
    (hmem : p.members = none)
    (hcached : alistGet cache.guilds p.id = some old) :
    (alistGet (_handle_guild_update cache p).1.guilds p.id).map GuildEntity.members
      = some old.members
    ∧ (alistGet (_handle_guild_update cache p).1.guilds p.id).map GuildEntity.name
      = some p.name
    ∧ (_handle_guild_update cache p).2.2.members = old.members := by
  refine ⟨?_, ?_, ?_⟩ <;>
    simp [_handle_guild_update, buildGuild, hcached, alistGet_alistInsert, hmem]

/-- The attributes the READY branch of GatewayDispatch.handle underscore
dispatch assigns (dispatch.py:127-128).  In the source these
assignments write to the GatewayDispatch instance itself, not to the
GatewayShard that owns it, so they live in their own structure; they do
not exist before the first READY, hence the optional fields. -/
structure DispatchObjState where
  resume_url : Option String := none
  session_id : Option String := none

/-- The per-shard state of GatewayShard (gateway.py:210-261) that the
claims touch: the identify parameters, the sequence, session and resume
bookkeeping, the ready, heartbeat-received and connecting events, the
state string, the dispatch object, and the shared cache. -/
structure Shard where
  shard_id : Nat
  shard_count : Nat
  intents : Nat
  sequence : Option Int := none
  session_id : Option String := none
  resume_url : String := "wss://gateway.discord.gg/?v=10&encoding=json&compress=zlib-stream"
  ready_received : Bool := false
  heartbeat_received : Bool := false
  connecting : Bool := false
  state : String := "Closed"
  dispatchObj : DispatchObjState := {}
  cache : CacheState := {}

/-- The fields of a READY dispatch payload that the READY branch reads
(dispatch.py:124-129). -/
structure ReadyPayload where
  user : JVal
  application_id : Nat
  resume_gateway_url : String
  session_id : String

/-- The READY branch of GatewayDispatch.handle underscore dispatch
(dispatch.py:124-129): set the cached self user and application id,
assign resume underscore url and session underscore id on the
GatewayDispatch object, and return before the generic handler table is
consulted.  The fields of the same names on the GatewayShard itself are
not assigned. -/
def handleDispatchReady (sh : Shard) (p : ReadyPayload) : Shard :=
  { sh with
    cache := { sh.cache with
      user := some p.user
      applicationId := some p.application_id }
    dispatchObj := { resume_url := some p.resume_gateway_url
                     session_id := some p.session_id } }

/-- The RESUME payload built by GatewayShard.resume (gateway.py:805-819)
from the token and the session underscore id and sequence attributes of
the shard itself; a Python None serializes to a JSON null. -/
def shardResumePayload (token : String) (sh : Shard) : JVal :=
  .jobj
    [("token", .jstr token),
     ("session_id", match sh.session_id with
       | some s => .jstr s
       | none => .null),
     ("seq", match sh.sequence with
       | some n => .jnum n
       | none => .null)]

/-- A shard that has been running: sequence 10 seen, initial session
state untouched. -/
def runningShard : Shard :=
  { shard_id := 0, shard_count := 1, intents := 0, sequence := some 10 }

/-- A READY payload carrying a session id and a resume URL. -/
def readySample : ReadyPayload :=
  { user := JVal.jobj []
    application_id := 123
    resume_gateway_url := "wss://resume.example"
    session_id := "abc123" }

/-- C4 (code bug): handling READY leaves the session underscore id and
resume underscore url attributes of the shard untouched (the payload
values land on the GatewayDispatch object instead), while the cached
self user and application id are set and the generic handler table is
skipped; consequently a later RESUME sends a null session underscore id
rather than the session id delivered by READY, and the last seen
sequence. -/
theorem ready_session_id_not_stored_on_shard :
    (handleDispatchReady runningShard readySample).session_id = none
    ∧ (handleDispatchReady runningShard readySample).resume_url = runningShard.resume_url
    ∧ (handleDispatchReady runningShard readySample).dispatchObj.session_id = some "abc123"
    ∧ (handleDispatchReady runningShard readySample).dispatchObj.resume_url
        = some "wss://resume.example"
    ∧ (handleDispatchReady runningShard readySample).cache.user = some (JVal.jobj [])
    ∧ (handleDispatchReady runningShard readySample).cache.applicationId = some 123
    ∧ jlookup "session_id"
        (shardResumePayload "token" (handleDispatchReady runningShard readySample))
        = some JVal.null
    ∧ jlookup "seq"
        (shardResumePayload "token" (handleDispatchReady runningShard readySample))
        = some (JVal.jnum 10) := by
  refine ⟨rfl, rfl, rfl, rfl, rfl, rfl, rfl, rfl⟩

/-- The messages a shard writes to the socket in the flows the claims
cover. -/
inductive GwSend where
  | identifyMsg : JVal → GwSend
  | resumeMsg : JVal → GwSend

/-- The externally visible steps of the invalidate-session flow. -/
inductive ShardAction where
  | sleepFor : Nat → ShardAction
  | send : GwSend → ShardAction
  | waitReady : ShardAction

/-- GatewayShard.send underscore resume underscore identify
(gateway.py:620-649) up to the point where the READY wait starts: set
the connecting event, clear the ready event, acquire the identify
semaphore, send RESUME when resume is true and IDENTIFY otherwise, and
then wait for a READY or RESUMED.  Neither branch assigns sequence or
session underscore id. -/
def send_resume_identify (token os : String) (sh : Shard) (resume : Bool) :
    Shard × List ShardAction :=
  let sh1 := { sh with
    connecting := true
    ready_received := false
    state := "Waiting for READY/RESUMED" }
  let msg :=
    if resume then GwSend.resumeMsg (shardResumePayload token sh1)
    else GwSend.identifyMsg (identifyPayload token os sh1.shard_id sh1.shard_count sh1.intents)
  (sh1, [ShardAction.send msg, ShardAction.waitReady])

/-- The INVALIDATE_SESSION arm of GatewayShard.message underscore
handler (gateway.py:904-915): log, sleep 5 seconds, then run send
underscore resume underscore identify with resume equal to the message
payload.  The arm never calls underscore connect, so the sequence reset
of gateway.py:542-543 is not reached. -/
def handleInvalidateSession (token os : String) (sh : Shard) (payload : Bool) :
    Shard × List ShardAction :=
  let r := send_resume_identify token os sh payload
  (r.1, ShardAction.sleepFor 5 :: r.2)

/-- A shard mid-session, with a sequence and a session id present, used
to exhibit the invalidate-session behaviour. -/
def midSessionShard : Shard :=
  { shard_id := 0, shard_count := 1, intents := 0,
    sequence := some 42, session_id := some "sess" }

/-- Counterexample to C3: an INVALIDATE_SESSION payload of false does
not clear session underscore id or sequence before the next IDENTIFY;
both survive the handler unchanged. -/
theorem invalidate_session_false_does_not_clear :
    (handleInvalidateSession "token" "Linux" midSessionShard false).1.sequence = some 42
    ∧ (handleInvalidateSession "token" "Linux" midSessionShard false).1.sequence ≠ none
    ∧ (handleInvalidateSession "token" "Linux" midSessionShard false).1.session_id = some "sess"
    ∧ (handleInvalidateSession "token" "Linux" midSessionShard false).1.session_id ≠ none
    ∧ (handleInvalidateSession "token" "Linux" midSessionShard false).2
        = [ShardAction.sleepFor 5,
           ShardAction.send (GwSend.identifyMsg (identifyPayload "token" "Linux" 0 1 0)),
           ShardAction.waitReady] := by
  refine ⟨rfl, fun h => Option.noConfusion h, rfl, fun h => Option.noConfusion h, rfl⟩

/-- C3 (corrected): for any payload, the INVALIDATE_SESSION arm leaves
both sequence and session underscore id unchanged, clears the ready
event, sets the connecting event, and after the 5 second sleep sends
RESUME when the payload is true and IDENTIFY when it is false (the
payload of false does not clear session state, because the arm calls
send underscore resume underscore identify directly and never the
connect path that resets the sequence). -/
theorem invalidate_session_preserves_session_and_sequence
    (token os : String) (sh : Shard) (payload : Bool) :
    (handleInvalidateSession token os sh payload).1.sequence = sh.sequence
    ∧ (handleInvalidateSession token os sh payload).1.session_id = sh.session_id
    ∧ (handleInvalidateSession token os sh payload).1.ready_received = false
    ∧ (handleInvalidateSession token os sh payload).1.connecting = true
    ∧ (handleInvalidateSession token os sh payload).2
        = [ShardAction.sleepFor 5,
           ShardAction.send
             (if payload then GwSend.resumeMsg (shardResumePayload token sh)
              else GwSend.identifyMsg
                (identifyPayload token os sh.shard_id sh.shard_count sh.intents)),
           ShardAction.waitReady] := by
  refine ⟨rfl, rfl, rfl, rfl, ?_⟩
  cases payload <;> rfl

/-- A concrete cached guild for the C7 witness. -/
def cachedGuildSample : GuildEntity :=
  { id := 5, name := "old name", members := [(1, JVal.null)],
    channels := [], threads := [], emojis := [], stickers := [], events := [] }

/-- A concrete guild update payload without member data for the C7
witness. -/
def guildUpdateSample : GatewayGuildPayload :=
  { id := 5, name := "new name", members := none,
    channels := [(9, JVal.null)], threads := [], emojis := [], stickers := [], events := [] }

/-- Witness for C7: updating cached guild 5 with a memberless payload
keeps member 1 cached and refreshes the name. -/
theorem guild_update_preserves_members_witness :
    (alistGet (_handle_guild_update { guilds := [(5, cachedGuildSample)] } guildUpdateSample).1.guilds 5).map GuildEntity.members
      = some [(1, JVal.null)]
    ∧ (alistGet (_handle_guild_update { guilds := [(5, cachedGuildSample)] } guildUpdateSample).1.guilds 5).map GuildEntity.name
      = some "new name"
    ∧ (_handle_guild_update { guilds := [(5, cachedGuildSample)] } guildUpdateSample).2.2.members
      = [(1, JVal.null)] := by
  exact guild_update_preserves_members { guilds := [(5, cachedGuildSample)] }
    guildUpdateSample cachedGuildSample rfl rfl

/-- The state-mutating operations of a GatewayShard over its lifetime,
one per mutation site in gateway.py: the HEARTBEAT_ACK arm setting the
heartbeat event (869-870), a DISPATCH message updating the sequence and
setting the ready event on READY or RESUMED (882-894), the
INVALIDATE_SESSION arm running send underscore resume underscore
identify (904-915), the start of underscore connect clearing the
sequence on a non-resuming connect (523-543), the completed READY wait
(648-649), close (651-672), reconnect setting the connecting event
(484-495), sending a heartbeat (713), and change underscore presence
(821-848). -/
inductive ShardOp where
  | heartbeatAck : ShardOp
  | dispatchMsg : String → Option Int → ShardOp
  | invalidateSessionOp : Bool → ShardOp
  | connectStart : Bool → ShardOp
  | readyWaitCompleted : ShardOp
  | closeOp : ShardOp
  | reconnectStart : ShardOp
  | heartbeatSendOp : ShardOp
  | changePresenceOp : ShardOp

/-- The effect of each shard operation on the modelled shard state,
faithful to the corresponding lines of gateway.py.  No operation ever
clears the heartbeat underscore received event: the source sets it in
the HEARTBEAT_ACK arm and never calls clear on it anywhere. -/
def stepShard (sh : Shard) (op : ShardOp) : Shard :=
  match op with
  | .heartbeatAck => { sh with heartbeat_received := true }
  | .dispatchMsg name seq =>
      { sh with
        sequence := seq
        ready_received :=
          if name = "READY" || name = "RESUMED" then true else sh.ready_received }
  | .invalidateSessionOp _ =>
      { sh with
        connecting := true
        ready_received := false
        state := "Waiting for READY/RESUMED" }
  | .connectStart resume =>
      { sh with
        connecting := true
        sequence := if resume then sh.sequence else none
        state := if resume then "Reconnecting" else "Connecting" }
  | .readyWaitCompleted => { sh with state := "Ready", connecting := false }
  | .closeOp => { sh with state := "Closed" }
  | .reconnectStart => { sh with connecting := true }
  | .heartbeatSendOp => sh
  | .changePresenceOp => sh

/-- How the 10 second acknowledgement wait of gateway.py:714 behaves:
asyncio.Event.wait returns immediately when the event is already set,
otherwise it completes if an acknowledgement arrives within the timeout
and times out if none does. -/
inductive AckWaitResult where
  | immediate : AckWaitResult
  | completedLater : AckWaitResult
  | timedOut : AckWaitResult
  deriving DecidableEq

/-- The acknowledgement wait as a function of the current event flag
and of whether an acknowledgement arrives within the 10 seconds. -/
def ackWait (flagSet ackArrives : Bool) : AckWaitResult :=
  if flagSet then .immediate
  else if ackArrives then .completedLater
  else .timedOut

theorem stepShard_preserves_heartbeat_received (sh : Shard) (op : ShardOp)
    (h : sh.heartbeat_received = true) :
    (stepShard sh op).heartbeat_received = true := by
  cases op <;> simp [stepShard, h]

/-- C10 (confirmed): once the heartbeat underscore received event is
set, no sequence of shard operations ever clears it, and every later
acknowledgement wait completes immediately whether or not an
acknowledgement arrives in that cycle. -/
theorem heartbeat_received_never_cleared (sh : Shard) (ops : List ShardOp)
    (ackArrives : Bool) (h : sh.heartbeat_received = true) :
    (ops.foldl stepShard sh).heartbeat_received = true
    ∧ ackWait (ops.foldl stepShard sh).heartbeat_received ackArrives
        = AckWaitResult.immediate := by
  have hmono : ∀ (l : List ShardOp) (s : Shard), s.heartbeat_received = true →
      (l.foldl stepShard s).heartbeat_received = true := by
    intro l
    induction l with
    | nil => intro s hs; simpa using hs
    | cons op rest ih =>
      intro s hs
      exact ih (stepShard s op) (stepShard_preserves_heartbeat_received s op hs)
  have hall := hmono ops sh h
  exact ⟨hall, by simp [ackWait, hall]⟩

/-- A shard whose first HEARTBEAT_ACK has arrived. -/
def ackedShard : Shard :=
  { shard_id := 0, shard_count := 1, intents := 0, heartbeat_received := true }

/-- Witness for C10: after one of each shard operation, the event is
still set and the acknowledgement wait is immediate even though no
acknowledgement arrives in the cycle. -/
theorem heartbeat_received_never_cleared_witness :
    (([ShardOp.dispatchMsg "MESSAGE_CREATE" (some 2),
       ShardOp.invalidateSessionOp false,
       ShardOp.connectStart false,
       ShardOp.readyWaitCompleted,
       ShardOp.closeOp,
       ShardOp.reconnectStart,
       ShardOp.heartbeatSendOp,
       ShardOp.changePresenceOp].foldl stepShard ackedShard).heartbeat_received = true)
    ∧ ackWait (([ShardOp.dispatchMsg "MESSAGE_CREATE" (some 2),
       ShardOp.invalidateSessionOp false,
       ShardOp.connectStart false,
       ShardOp.readyWaitCompleted,
       ShardOp.closeOp,
       ShardOp.reconnectStart,
       ShardOp.heartbeatSendOp,
       ShardOp.changePresenceOp].foldl stepShard ackedShard).heartbeat_received) false
        = AckWaitResult.immediate := by
  exact heartbeat_received_never_cleared ackedShard
    [ShardOp.dispatchMsg "MESSAGE_CREATE" (some 2),
     ShardOp.invalidateSessionOp false,
     ShardOp.connectStart false,
     ShardOp.readyWaitCompleted,
     ShardOp.closeOp,
     ShardOp.reconnectStart,
     ShardOp.heartbeatSendOp,
     ShardOp.changePresenceOp] false rfl

/-- A Python exception at the Exception level of the hierarchy, as the
except clause of GatewayShard.handle underscore dispatch catches it. -/
inductive PyExc where
  | exc : String → String → PyExc
  deriving DecidableEq

/-- The events dispatch.py:140-149 excludes from the debug dump path. -/
def skipDumpEvents : List String :=
  ["PRESENCE_UPDATE", "GUILD_CREATE", "MESSAGE_CREATE", "VOICE_STATE_UPDATE",
   "READY", "TYPING_START", "CHANNEL_UPDATE", "MESSAGE_UPDATE", "MESSAGE_DELETE"]

/-- GatewayDispatch.handle underscore dispatch (dispatch.py:119-157) as
a fallible computation: the READY branch runs and returns early; any
other event looks up the handler table, an unmapped name is logged and
dropped, a mapped handler runs and may raise; afterwards events outside
the skip list run the debug dump step, which may itself raise.  An
error anywhere aborts the rest, exactly as a raised exception does. -/
def dispatchHandleDispatch (readyBranch : JVal → Except PyExc Unit)
    (handlers : String → Option (JVal → Except PyExc Unit))
    (dumpStep : Except PyExc Unit)
    (eventName : String) (data : JVal) : Except PyExc Unit :=
  if eventName = "READY" then readyBranch data
  else do
    (match handlers eventName with
     | none => pure ()
     | some h => h data)
    if eventName ∈ skipDumpEvents then pure () else dumpStep

/-- How a dispatch task ends, seen from the shard control loop. -/
inductive DispatchOutcome where
  | completed : DispatchOutcome
  | loggedDropped : PyExc → DispatchOutcome
  | propagated : PyExc → DispatchOutcome
  deriving DecidableEq

/-- GatewayShard.handle underscore dispatch (gateway.py:850-857): run
the dispatch layer inside a try whose except Exception clause logs the
error and drops it. -/
def shard_handle_dispatch (inner : String → JVal → Except PyExc Unit)
    (eventName : String) (data : JVal) : DispatchOutcome :=
  match inner eventName data with
  | .ok _ => .completed
  | .error e => .loggedDropped e

/-- Whether a dispatch outcome escapes into the shard control loop. -/
def DispatchOutcome.propagates : DispatchOutcome → Bool
  | .propagated _ => true
  | _ => false

/-- C6 (confirmed): for every event name and payload, and whatever the
READY branch, the handler table and the dump step do, an exception
inside the dispatch layer is caught and dropped by GatewayShard.handle
underscore dispatch, which ends in loggedDropped on an error and
completed on success and never lets the exception propagate into the
message-handling control loop. -/
theorem handler_exception_never_propagates
    (readyBranch : JVal → Except PyExc Unit)
    (handlers : String → Option (JVal → Except PyExc Unit))
    (dumpStep : Except PyExc Unit)
    (eventName : String) (data : JVal) :
    (shard_handle_dispatch (dispatchHandleDispatch readyBranch handlers dumpStep)
        eventName data).propagates = false
    ∧ (match dispatchHandleDispatch readyBranch handlers dumpStep eventName data with
       | .ok _ =>
          shard_handle_dispatch (dispatchHandleDispatch readyBranch handlers dumpStep)
            eventName data = DispatchOutcome.completed
       | .error e =>
          shard_handle_dispatch (dispatchHandleDispatch readyBranch handlers dumpStep)
            eventName data = DispatchOutcome.loggedDropped e) := by
  constructor
  · cases h : dispatchHandleDispatch readyBranch handlers dumpStep eventName data <;>
      simp [shard_handle_dispatch, h, DispatchOutcome.propagates]
  · cases h : dispatchHandleDispatch readyBranch handlers dumpStep eventName data <;>
      simp [shard_handle_dispatch, h]

end NovusGateway
